import Mathlib

/-!
Verification of the MAI_DB_2sem repository.

The transactional core (`src/1.2.py`) drives concurrent workers against a
PostgreSQL table `mutations_foncieres`.  We embed the rows of that table, the
work-unit transactions, and each anomaly scenario as pure functions over an
explicit store state.  Concurrency is embedded by executing the events of a
scenario in the interleaving that the code's barrier and sleep staggering
force; where the code's timing leaves the interleaving genuinely open, the
order is an explicit parameter of the scenario function.

Isolation levels follow PostgreSQL semantics: a READ COMMITTED statement sees
the latest committed store; a REPEATABLE READ statement sees the snapshot the
transaction took at its first statement, and an UPDATE whose snapshot-matched
row was changed by a concurrently committed transaction raises a
serialization failure.

`src/main.py` (zip/CSV ingestion) and `src/1.1.py` (index benchmark) are
embedded separately at the bottom of the definitions section.
-/

namespace MAIDB

/-- One row of the `mutations_foncieres` table; the fields the scripts touch.
`valeur_fonciere` and `code_postal` are nullable in the data. Dates are
embedded as integers so that the SQL comparisons `date_mutation < cutoff`
keep their meaning. -/
structure Row where
  id : Nat
  id_mutation : String
  date_mutation : Int
  nature_mutation : String
  valeur_fonciere : Option ℚ
  code_commune : String
  nom_commune : String
  type_local : String
  code_postal : Option String
deriving Repr, DecidableEq

/-- The committed contents of the `mutations_foncieres` table. -/
abbrev Store := List Row

/-- The isolation levels the demos use (`ISOLATION_LEVEL_READ_COMMITTED`,
`ISOLATION_LEVEL_REPEATABLE_READ` in src/1.2.py). -/
inductive Isolation where
  | readCommitted
  | repeatableRead
deriving Repr, DecidableEq

/-- The store a statement of a transaction sees: the current committed store
at READ COMMITTED, the transaction's snapshot at REPEATABLE READ. -/
def visible (iso : Isolation) (snapshot committed : Store) : Store :=
  match iso with
  | .readCommitted => committed
  | .repeatableRead => snapshot

/-- SQL `SELECT ... WHERE id = %s ... fetchone()`: first row with the given id. -/
def findById (s : Store) (i : Nat) : Option Row :=
  s.find? (fun r => r.id == i)

/-- SQL `valeur_fonciere > x` (NULL compares to nothing). -/
def qGt (v : Option ℚ) (x : ℚ) : Bool :=
  match v with
  | some y => decide (x < y)
  | none => false

/-- SQL `SELECT COUNT(*) ... WHERE code_commune = c AND valeur_fonciere > x`
(the phantom-read predicate query, src/1.2.py lines 252, 263, 326, 337). -/
def countCommuneAbove (s : Store) (c : String) (x : ℚ) : Nat :=
  (s.filter (fun r => r.code_commune == c && qGt r.valeur_fonciere x)).length

/-- SQL `SELECT COUNT(*) ... WHERE date_mutation < cutoff` (archive pre/post
counts, src/1.2.py lines 544, 590, 606, 625). -/
def countOlderThan (s : Store) (cutoff : Int) : Nat :=
  (s.filter (fun r => decide (r.date_mutation < cutoff))).length

/-- SQL `SELECT AVG(valeur_fonciere) ... WHERE code_commune = c` — NULL (none)
when no non-null value matches, as in SQL (src/1.2.py line 75). -/
def avgCommune (s : Store) (c : String) : Option ℚ :=
  let vals := (s.filter (fun r => r.code_commune == c)).filterMap
    (fun r => r.valeur_fonciere)
  if vals.length = 0 then none else some (vals.sum / (vals.length : ℚ))

/-- SQL `SELECT COALESCE(AVG(valeur_fonciere), 0.0) ... WHERE code_postal = cp`
(src/1.2.py lines 663, 694, 752). -/
def avgPostalCoalesce (s : Store) (cp : String) : ℚ :=
  let vals := (s.filter (fun r => r.code_postal == some cp)).filterMap
    (fun r => r.valeur_fonciere)
  if vals.length = 0 then 0 else vals.sum / (vals.length : ℚ)

/-- The id the serial primary key assigns to a newly inserted row: fresh,
strictly greater than every existing id. -/
def freshId (s : Store) : Nat :=
  (s.map Row.id).foldr max 0 + 1

/-- SQL `DELETE FROM mutations_foncieres WHERE id = %s` (phantom cleanup,
src/1.2.py lines 301, 374). -/
def deleteById (s : Store) (i : Nat) : Store :=
  s.filter (fun r => !(r.id == i))

/-- The effect on one row of `UPDATE ... SET valeur_fonciere = %s WHERE
id = %s`. -/
def setValeurRow (i : Nat) (v : ℚ) (r : Row) : Row :=
  if r.id == i then { r with valeur_fonciere := some v } else r

/-- SQL `UPDATE mutations_foncieres SET valeur_fonciere = %s WHERE id = %s`
(src/1.2.py lines 202, 224). -/
def setValeurById (s : Store) (i : Nat) (v : ℚ) : Store :=
  s.map (setValeurRow i v)

/-- The effect on one row of the conditional rename `UPDATE ... SET
nom_commune = new WHERE code_commune = c AND nom_commune = old`. -/
def renameRow (c old new : String) (r : Row) : Row :=
  if r.code_commune == c && r.nom_commune == old then
    { r with nom_commune := new }
  else r

/-- SQL `UPDATE ... SET nom_commune = new WHERE code_commune = c AND
nom_commune = old` (the conditional update of src/1.2.py line 123). -/
def updateCommuneRows (s : Store) (c old new : String) : Store :=
  s.map (renameRow c old new)

/-- The effect on one row of the unconditional restore `UPDATE ... SET
nom_commune = orig WHERE code_commune = c`. -/
def restoreNameRow (c orig : String) (r : Row) : Row :=
  if r.code_commune == c then { r with nom_commune := orig } else r

/-- SQL `UPDATE ... SET nom_commune = orig WHERE code_commune = c` (the
unconditional restore of src/1.2.py line 493). -/
def restoreCommuneName (s : Store) (c orig : String) : Store :=
  s.map (restoreNameRow c orig)

/-- The machine-checkable kind psycopg2 attaches to a statement error:
`pg_errors.SerializationFailure` versus any other `psycopg2.Error`. -/
inductive PgError where
  | serializationFailure
  | otherStoreError
deriving Repr, DecidableEq

/-- Whether the committed store still holds `r` unchanged (same id, same
contents). -/
def rowCurrentUnchanged (committed : Store) (r : Row) : Bool :=
  match findById committed r.id with
  | some r2 => r2 == r
  | none => false

/-- PostgreSQL REPEATABLE READ write-conflict check for the conditional
commune-name UPDATE: the statement locates its target rows in the
transaction snapshot; if any located row's current committed version was
changed by a concurrently committed transaction, the statement raises
`SerializationFailure`. -/
def rrUpdateConflict (snapshot committed : Store) (c old : String) : Bool :=
  snapshot.any (fun r =>
    r.code_commune == c && r.nom_commune == old &&
      !(rowCurrentUnchanged committed r))

/-- The input dict of `transaction_register_sale` (src/1.2.py lines 280-283). -/
structure SaleDetails where
  date_mutation : Int
  valeur_fonciere : ℚ
  code_commune : String
  nom_commune : String
  type_local : String
deriving Repr, DecidableEq

/-- Embedding of `transaction_register_sale` (src/1.2.py lines 65-101), run against the
committed store with the store's response to the INSERT injected as `err`.
Step 1 reads `AVG(valeur_fonciere)` for the commune and formats it with
`:.2f`; when the average is SQL NULL this raises a `TypeError` before the
INSERT, which the function's `except psycopg2.Error` does not catch, so the
`with conn` block rolls back and no row is inserted (the caller's generic
handler records a failure).  On a store error the function catches it,
the transaction is rolled back, and it returns `None` whatever the error's
kind was.  On success the INSERT commits (`with conn`) and the new serial id
is returned.  Result: (returned id or None, committed store after). -/
def transaction_register_sale (s : Store) (d : SaleDetails) (idm : String)
    (err : Option PgError) : Option Nat × Store :=
  if (avgCommune s d.code_commune).isNone then
    (none, s)
  else
    match err with
    | some _ => (none, s)
    | none =>
      let i := freshId s
      (some i, s ++ [{ id := i, id_mutation := idm,
                       date_mutation := d.date_mutation,
                       nature_mutation := "Vente",
                       valeur_fonciere := some d.valeur_fonciere,
                       code_commune := d.code_commune,
                       nom_commune := d.nom_commune,
                       type_local := d.type_local,
                       code_postal := none }])

/-- Embedding of `transaction_update_commune_name` (src/1.2.py lines 103-132), with the
store's response to the UPDATE injected as `err`.  Any `psycopg2.Error` is
caught after the `with conn` block has rolled the transaction back; the
error's kind is only printed (the `isinstance` check at line 130 prints a
banner and nothing else) and `False` is returned whatever the kind was.  On
success the conditional update commits and `True` is returned regardless of
the row count.  Result: (returned flag, committed store after). -/
def transaction_update_commune_name (s : Store) (c old new : String)
    (err : Option PgError) : Bool × Store :=
  match err with
  | some _ => (false, s)
  | none => (true, updateCommuneRows s c old new)

/-! ### Scenario: non-repeatable read (src/1.2.py lines 135-229) -/

/-- What `demo_non_repeatable_read` collects: the reader's two reads, the
anomaly flag it tests (`val1 != val2`, line 181), and the committed store
when both threads have joined (before the restore step). -/
structure NrrOutcome where
  read1 : ℚ
  read2 : Option ℚ
  observed : Bool
  committed : Store
deriving Repr, DecidableEq

/-- Embedding of `demo_non_repeatable_read`, scenario part (src/1.2.py lines 135-217).
The barrier and the reader's 1 s grace sleep force the order: reader's first
read (committed = initial store), barrier, writer's UPDATE and commit,
reader's second read inside the same still-open READ COMMITTED transaction
(committed = updated store).  `none` embeds the runs that produce no
outcome: the setup finds no row for the id (early return, lines 141-150),
or the row's value is SQL NULL, in which case the writer thread dies
computing `initial_details[1] + 10000` (line 193) before reaching the
barrier and no rendezvous happens. -/
def demo_non_repeatable_read (s0 : Store) (mid : Nat) : Option NrrOutcome :=
  match findById s0 mid with
  | none => none
  | some r0 =>
    match r0.valeur_fonciere with
    | none => none
    | some v0 =>
      let read1 := v0
      let s1 := setValeurById s0 mid (v0 + 10000)
      let read2 := (findById s1 mid).bind (fun r => r.valeur_fonciere)
      some { read1 := read1, read2 := read2,
             observed := !(some read1 == read2), committed := s1 }

/-- Embedding of `demo_non_repeatable_read` including its restore step (src/1.2.py lines
219-229): a separate autocommit session sets `valeur_fonciere` back to the
recorded initial value for the tested id; no comparison against the
baseline is performed afterwards. -/
def demo_non_repeatable_read_full (s0 : Store) (mid : Nat) : Option Store :=
  match findById s0 mid with
  | none => none
  | some r0 =>
    match r0.valeur_fonciere with
    | none => none
    | some v0 =>
      (demo_non_repeatable_read s0 mid).map
        (fun o => setValeurById o.committed mid v0)

/-! ### Scenario: phantom read (src/1.2.py lines 232-383) -/

/-- Scenario constants `test_commune`, `test_value` (lines 237-238). -/
def testCommune : String := "01053"

def testValue : ℚ := 9999999

/-- The sale dict the inserter passes (lines 280-283). -/
def phantomSale : SaleDetails :=
  { date_mutation := 20240101, valeur_fonciere := testValue,
    code_commune := testCommune, nom_commune := "Phantom Test",
    type_local := "Maison" }

/-- The reader's predicate query (lines 252, 263, 326, 337). -/
def countQualifying (s : Store) : Nat :=
  countCommuneAbove s testCommune (testValue - 1)

/-- What one phantom-read run collects. -/
structure PhantomOutcome where
  count1 : Nat
  count2 : Nat
  inserted : Bool
  committed : Store
deriving Repr, DecidableEq

/-- One phantom-read run (`tx1_reader_rc`/`tx2_inserter_rc` at READ
COMMITTED, lines 245-311, or `tx1_reader_rr`/`tx2_inserter_rr` with the
reader at REPEATABLE READ, lines 319-383; the two pairs differ only in the
reader's isolation level).  Event order forced by the code's own delays:
the reader counts, both pass the barrier, the inserter's
`transaction_register_sale` commits within about 0.4 s, and the inserter's
`finally` block then immediately deletes the inserted row through an
autocommit session (lines 296-306) — all while the reader is still inside
its 1 s grace sleep; the reader's second count therefore runs after both
the insert and the cleanup delete have committed. -/
def demo_phantom_read (iso : Isolation) (s0 : Store) (idm : String) :
    PhantomOutcome :=
  let snap := s0
  let count1 := countQualifying (visible iso snap s0)
  let res := transaction_register_sale s0 phantomSale idm none
  match res.1 with
  | none =>
    { count1 := count1, count2 := countQualifying (visible iso snap res.2),
      inserted := false, committed := res.2 }
  | some i =>
    let s2 := deleteById res.2 i
    { count1 := count1, count2 := countQualifying (visible iso snap s2),
      inserted := true, committed := s2 }

/-- The phantom-read run under the interleaving the spec intends (and the
grace sleep was written for): the reader's second count executes after the
insert commits but before the inserter's cleanup delete. -/
def demo_phantom_read_intended (iso : Isolation) (s0 : Store) (idm : String) :
    PhantomOutcome :=
  let snap := s0
  let count1 := countQualifying (visible iso snap s0)
  let res := transaction_register_sale s0 phantomSale idm none
  match res.1 with
  | none =>
    { count1 := count1, count2 := countQualifying (visible iso snap res.2),
      inserted := false, committed := res.2 }
  | some i =>
    let count2 := countQualifying (visible iso snap res.2)
    { count1 := count1, count2 := count2,
      inserted := true, committed := deleteById res.2 i }

/-! ### Scenario: serialization failure (src/1.2.py lines 386-498) -/

/-- Scenario constant `test_code_commune` (line 389). -/
def testCodeCommune : String := "01344"

/-- The new name `tx1_updater` writes (line 416). -/
def tx1Name (orig : String) (n : Nat) : String :=
  orig ++ "_TX1_" ++ toString n

/-- The new name `tx2_updater` writes (line 451). -/
def tx2Name (orig : String) (n : Nat) : String :=
  orig ++ "_TX2_" ++ toString n

/-- What `demo_serialization_failure` records in `results` plus the
committed store when both threads have joined (before the restore step). -/
structure SerializationOutcome where
  tx1_success : Bool
  tx2_success : Bool
  committed : Store
deriving Repr, DecidableEq

/-- Embedding of `demo_serialization_failure`, scenario part (src/1.2.py lines 386-486).
Setup reads `original_name` from the first row of the commune (lines
392-394); no row means an early return (`none`).  Both updaters run at
REPEATABLE READ.  The barrier plus tx2's fixed 0.3 s stagger (line 450)
put tx1's conditional UPDATE first; but whether tx1's commit lands before
tx2's first statement — the SELECT that takes tx2's snapshot — depends on
tx1's random 0.1-0.5 s in-transaction sleep (line 120), so that order is
the explicit parameter `tx1CommitsBeforeTx2Snapshot`.  tx1's UPDATE runs
with snapshot = committed (nothing committed concurrently before it), so
it cannot conflict; its success commits.  tx2's UPDATE then either raises
`SerializationFailure` (snapshot taken before tx1's commit: its matched
rows changed under it), which `transaction_update_commune_name` turns into
`False` with rollback, or — with its snapshot taken after tx1's commit —
matches no row (all rows carrying the old name were renamed) and succeeds
vacuously. -/
def demo_serialization_failure (s0 : Store) (n1 n2 : Nat)
    (tx1CommitsBeforeTx2Snapshot : Bool) : Option SerializationOutcome :=
  match s0.find? (fun r => r.code_commune == testCodeCommune) with
  | none => none
  | some r0 =>
    let orig := r0.nom_commune
    let err1 : Option PgError :=
      if rrUpdateConflict s0 s0 testCodeCommune orig then
        some .serializationFailure
      else none
    let t1 := transaction_update_commune_name s0 testCodeCommune orig
      (tx1Name orig n1) err1
    let s1 := t1.2
    let snap2 := if tx1CommitsBeforeTx2Snapshot then s1 else s0
    let err2 : Option PgError :=
      if rrUpdateConflict snap2 s1 testCodeCommune orig then
        some .serializationFailure
      else none
    let t2 := transaction_update_commune_name s1 testCodeCommune orig
      (tx2Name orig n2) err2
    some { tx1_success := t1.1, tx2_success := t2.1, committed := t2.2 }

/-- Embedding of `demo_serialization_failure` including its restore step (src/1.2.py
lines 488-498): a separate autocommit session sets `nom_commune` to the
sampled `original_name` for EVERY row of the commune and prints the row
count; no comparison against the baseline is performed. -/
def demo_serialization_failure_full (s0 : Store) (n1 n2 : Nat)
    (tx1CommitsBeforeTx2Snapshot : Bool) : Option Store :=
  match s0.find? (fun r => r.code_commune == testCodeCommune) with
  | none => none
  | some r0 =>
    (demo_serialization_failure s0 n1 n2 tx1CommitsBeforeTx2Snapshot).map
      (fun o => restoreCommuneName o.committed testCodeCommune r0.nom_commune)

/-! ### Guarded archive (src/1.2.py lines 533-639) -/

/-- Embedding of `transaction_archive_old_mutations` (src/1.2.py lines 533-573), running
inside the caller's open transaction (single session, so its statements see
each other's effects).  Step 1 counts the rows older than the cutoff; zero
means an early `return 0` with nothing deleted.  Step 2 deletes them; the
DELETE's row count equals the counted number (no concurrent writer in this
session's transaction).  Result: (returned count, transaction-local store). -/
def transaction_archive_old_mutations (tx : Store) (cutoff : Int) :
    Int × Store :=
  let count_to_delete := countOlderThan tx cutoff
  if count_to_delete = 0 then
    (0, tx)
  else
    ((count_to_delete : Int),
     tx.filter (fun r => !(decide (r.date_mutation < cutoff))))

/-- What `run_archive_test_with_rollback` observes. -/
structure ArchiveTestResult where
  initial_count : Nat
  deleted_count : Option Int
  count_after_delete : Option Nat
  count_after_rollback : Nat
  final : Store
deriving Repr, DecidableEq

/-- Embedding of `run_archive_test_with_rollback` (src/1.2.py lines 576-639).  One
non-autocommit READ COMMITTED session: pre-count (line 590); if zero, early
return at line 596 — but the `finally` block still runs, rolls back the
(empty) transaction and re-counts (lines 616-635).  Otherwise the archive
work unit runs (DELETE inside the open transaction), the in-transaction
post-delete count is checked (lines 605-610), and the `finally` block
unconditionally rolls the transaction back, re-counts on the same session
and closes it.  Nothing is ever committed, so the committed store is
returned unchanged as `final`. -/
def run_archive_test_with_rollback (committed : Store) (cutoff : Int) :
    ArchiveTestResult :=
  let initial := countOlderThan committed cutoff
  if initial = 0 then
    { initial_count := initial, deleted_count := none,
      count_after_delete := none,
      count_after_rollback := countOlderThan committed cutoff,
      final := committed }
  else
    let res := transaction_archive_old_mutations committed cutoff
    { initial_count := initial, deleted_count := some res.1,
      count_after_delete := some (countOlderThan res.2 cutoff),
      count_after_rollback := countOlderThan committed cutoff,
      final := committed }

/-! ### Bulk price adjustment (src/1.2.py lines 500-531 and 643-779) -/

/-- The effect of the bulk UPDATE on one row: `SET valeur_fonciere =
valeur_fonciere * factor WHERE code_postal = cp AND valeur_fonciere IS NOT
NULL AND valeur_fonciere > 0` (src/1.2.py lines 512-516). -/
def adjustRow (cp : String) (factor : ℚ) (r : Row) : Row :=
  if r.code_postal == some cp && qGt r.valeur_fonciere 0 then
    { r with valeur_fonciere := r.valeur_fonciere.map (fun w => w * factor) }
  else r

/-- Embedding of `transaction_bulk_price_adjustment` (src/1.2.py lines 500-531): inside
one transaction, the bulk UPDATE above with `factor = 1 + percentage / 100`
(line 507); the min/max check only prints.  Result: (updated row count,
committed store). -/
def transaction_bulk_price_adjustment (s : Store) (cp : String)
    (percentage : ℚ) : Nat × Store :=
  ((s.filter (fun r =>
      r.code_postal == some cp && qGt r.valeur_fonciere 0)).length,
   s.map (adjustRow cp (1 + percentage / 100)))

/-- The round trip the main block performs (src/1.2.py lines 656-779):
apply `percentage`, commit, then apply the inverse —
`rollback_factor = 1 / (1 + percentage/100)`,
`rollback_percentage = (rollback_factor - 1) * 100` (lines 738-742) — and
commit again. -/
def bulkRoundTrip (s : Store) (cp : String) (percentage : ℚ) : Store :=
  let s1 := (transaction_bulk_price_adjustment s cp percentage).2
  let rollback_factor := 1 / (1 + percentage / 100)
  let rollback_percentage := (rollback_factor - 1) * 100
  (transaction_bulk_price_adjustment s1 cp rollback_percentage).2

/-! ### Barrier waits (threading.Barrier in src/1.2.py) -/

/-- What happens to a party calling `threading.Barrier(parties).wait(timeout)`
when `arrivedOthers` other parties (ever) arrive: released when the barrier
fills; otherwise a timeout turns the missed rendezvous into a
`BrokenBarrierError` after the timeout, while no timeout leaves the caller
blocked indefinitely. -/
inductive WaitResult where
  | released
  | timedOut
  | blockedForever
deriving Repr, DecidableEq

def barrierWaitResult (parties arrivedOthers : Nat) (timeout : Option ℚ) :
    WaitResult :=
  if parties ≤ arrivedOthers + 1 then .released
  else
    match timeout with
    | some _ => .timedOut
    | none => .blockedForever

/-- One `barrier.wait()` call site of a scenario work unit. -/
structure BarrierWaitCall where
  scenario : String
  role : String
  timeout : Option ℚ
deriving Repr, DecidableEq

/-- Every `barrier.wait()` call issued by a scenario work unit in
src/1.2.py: lines 171 and 197 (non-repeatable read), 258 and 287 (phantom
read at READ COMMITTED), 332 and 361 (phantom read at REPEATABLE READ),
414 and 448 (serialization failure).  All eight are `wait()` with no
argument; every barrier is `threading.Barrier(2)`. -/
def scenarioBarrierWaitCalls : List BarrierWaitCall :=
  [{ scenario := "non_repeatable_read", role := "tx1_reader", timeout := none },
   { scenario := "non_repeatable_read", role := "tx2_writer", timeout := none },
   { scenario := "phantom_read_rc", role := "tx1_reader_rc", timeout := none },
   { scenario := "phantom_read_rc", role := "tx2_inserter_rc", timeout := none },
   { scenario := "phantom_read_rr", role := "tx1_reader_rr", timeout := none },
   { scenario := "phantom_read_rr", role := "tx2_inserter_rr", timeout := none },
   { scenario := "serialization_failure", role := "tx1_updater", timeout := none },
   { scenario := "serialization_failure", role := "tx2_updater", timeout := none }]

/-! ### Zip/CSV ingestion (src/main.py lines 21-97) -/

/-- The state of one expected CSV member inside an archive, as
`read_combine_from_zips` can encounter it while reading it. -/
inductive MemberState where
  | absent
  | emptyData
  | malformed
  | otherReadError
  | outOfMemory
  | ok (rows : List Nat)

/-- The state of one archive file on disk. -/
inductive ArchiveState where
  | missing
  | notAZip
  | present (members : String → MemberState)

/-- What one iteration of the loading loop does with its (zip, csv) pair:
contribute nothing and continue, abort the whole function, or append one
DataFrame. -/
inductive LoadResult where
  | skipped
  | fatal
  | loaded (rows : List Nat)
deriving Repr, DecidableEq

/-- The rows a loop iteration appended to `dataframes`, if any. -/
def LoadResult.toRows : LoadResult → Option (List Nat)
  | .loaded rows => some rows
  | _ => none

/-- The per-archive load step of `read_combine_from_zips` (src/main.py
lines 43-78): a missing archive (line 45), a corrupt archive
(`BadZipFile`, line 67), a member absent from the namelist (line 52), an
empty member (`EmptyDataError`, line 69), a parse error (`ParserError`,
line 71) and any other unexpected per-archive error (line 77) are each
logged and skipped, contributing no DataFrame; a `MemoryError` raised
while reading the member (lines 73-76) makes the function `return None`
at once; a successful `pd.read_csv` contributes its rows. -/
def loadCsvFromZip (fs : String → ArchiveState) (zipName csvName : String) :
    LoadResult :=
  match fs zipName with
  | .missing => .skipped
  | .notAZip => .skipped
  | .present members =>
    match members csvName with
    | .absent => .skipped
    | .emptyData => .skipped
    | .malformed => .skipped
    | .otherReadError => .skipped
    | .outOfMemory => .fatal
    | .ok rows => .loaded rows

/-- The loading loop of `read_combine_from_zips` (src/main.py lines
43-78): the (zip, csv) pairs are processed in list order; a skipped pair
contributes nothing, a loaded pair appends its DataFrame, and a
`MemoryError` returns `None` immediately, discarding the DataFrames
already loaded (lines 73-76). -/
def gatherDataframes (fs : String → ArchiveState) :
    List (String × String) → Option (List (List Nat))
  | [] => some []
  | p :: ps =>
    match loadCsvFromZip fs p.1 p.2 with
    | .fatal => none
    | .skipped => gatherDataframes fs ps
    | .loaded rows => (gatherDataframes fs ps).map (fun dfs => rows :: dfs)

/-- Embedding of `read_combine_from_zips` (src/main.py lines 21-97):
`None` if the two name lists have different lengths (line 35); the loop
gathers one DataFrame per loadable (zip, csv) pair in list order,
returning `None` at once on a read `MemoryError` (lines 73-76); `None` if
no DataFrame was loaded (lines 80-82); otherwise
`pd.concat(dataframes, ignore_index=True)` — the concatenation of the
loaded row lists in order — whose own failure paths (a `MemoryError` or
any other exception during the concat, lines 92-97) also return `None`
and are modelled by the environment flag `concatRaises`.  (The column-set
comparison at lines 60-63 only logs a warning.) -/
def read_combine_from_zips (fs : String → ArchiveState)
    (zip_files csv_names : List String) (concatRaises : Bool) :
    Option (List Nat) :=
  if zip_files.length ≠ csv_names.length then none
  else
    match gatherDataframes fs (zip_files.zip csv_names) with
    | none => none
    | some dataframes =>
      if dataframes = [] then none
      else if concatRaises then none
      else some dataframes.flatten

/-! ### Index-benchmark query runner (src/1.1.py lines 79-106) -/

/-- Whether the statement raised a `psycopg2.Error`. -/
inductive ExecOutcome where
  | success
  | storeError
deriving Repr, DecidableEq

/-- What `execute_query` leaves behind: the returned pair, whether
`conn.rollback()` was called, and whether the cursor was closed. -/
structure QueryRun where
  first : Option ℚ
  second : Option String
  rolledBack : Bool
  cursorClosed : Bool
deriving Repr, DecidableEq

/-- Embedding of `execute_query` (src/1.1.py lines 79-106).  `elapsedMs` models the
wall-clock measurement around the statement; `parsedTime` models
`re.search("Execution Time: ...")` over the joined EXPLAIN ANALYZE output
`explainOutput`.  On a `psycopg2.Error` the connection is rolled back and
`(None, None)` is returned; the `finally` block closes the cursor on every
path.  On success with `analyze` the extracted time (or, failing the
regex, the measured time) is returned with the plan text; without
`analyze` the measured time is returned with `None`. -/
def execute_query (analyze : Bool) (outcome : ExecOutcome) (elapsedMs : ℚ)
    (explainOutput : String) (parsedTime : Option ℚ) : QueryRun :=
  match outcome with
  | .storeError =>
    { first := none, second := none, rolledBack := true, cursorClosed := true }
  | .success =>
    if analyze then
      match parsedTime with
      | some t =>
        { first := some t, second := some explainOutput,
          rolledBack := false, cursorClosed := true }
      | none =>
        { first := some elapsedMs, second := some explainOutput,
          rolledBack := false, cursorClosed := true }
    else
      { first := some elapsedMs, second := none,
        rolledBack := false, cursorClosed := true }

/-! ### Helper lemmas -/

theorem findById_map_of_id_preserved (s : Store) (i : Nat) (u : Row → Row)
    (hu : ∀ r, (u r).id = r.id) :
    findById (s.map u) i = (findById s i).map u := by
  unfold findById
  rw [List.find?_map]
  have hfun : ((fun r : Row => r.id == i) ∘ u) = (fun r : Row => r.id == i) := by
    funext r
    simp [Function.comp, hu]
  rw [hfun]

theorem setValeurRow_id (i : Nat) (v : ℚ) (r : Row) :
    (setValeurRow i v r).id = r.id := by
  unfold setValeurRow
  by_cases h : (r.id == i) = true <;> simp [h]

theorem renameRow_id (c old new : String) (r : Row) :
    (renameRow c old new r).id = r.id := by
  unfold renameRow
  by_cases h : (r.code_commune == c && r.nom_commune == old) = true <;> simp [h]

theorem findById_setValeurById (s : Store) (i : Nat) (v : ℚ) :
    findById (setValeurById s i v) i = (findById s i).map (setValeurRow i v) := by
  unfold setValeurById
  exact findById_map_of_id_preserved s i _ (setValeurRow_id i v)

theorem row_eq_of_nodup_ids {s : Store} (hnd : (s.map Row.id).Nodup)
    {r1 r2 : Row} (h1 : r1 ∈ s) (h2 : r2 ∈ s) (hid : r1.id = r2.id) :
    r1 = r2 :=
  List.inj_on_of_nodup_map hnd h1 h2 hid

theorem findById_eq_of_mem {s : Store} (hnd : (s.map Row.id).Nodup)
    {r : Row} (hr : r ∈ s) : findById s r.id = some r := by
  have hsome : (s.find? (fun x => x.id == r.id)).isSome := by
    rw [List.find?_isSome]
    exact ⟨r, hr, by simp⟩
  obtain ⟨x, hx⟩ := Option.isSome_iff_exists.mp hsome
  have hmem := List.mem_of_find?_eq_some hx
  have hpx := List.find?_some hx
  have : x = r := row_eq_of_nodup_ids hnd hmem hr (by simpa using hpx)
  unfold findById
  rw [hx, this]

theorem mem_le_foldr_max (l : List Nat) (a : Nat) (ha : a ∈ l) :
    a ≤ l.foldr max 0 := by
  induction l with
  | nil => cases ha
  | cons x t ih =>
    rcases List.mem_cons.mp ha with h | h
    · subst h; exact le_max_left _ _
    · exact le_trans (ih h) (le_max_right _ _)

theorem id_lt_freshId {s : Store} {r : Row} (hr : r ∈ s) : r.id < freshId s := by
  unfold freshId
  have : r.id ∈ s.map Row.id := List.mem_map_of_mem Row.id hr
  exact Nat.lt_succ_of_le (mem_le_foldr_max _ _ this)

theorem deleteById_append_fresh (s : Store) (r : Row) (hid : r.id = freshId s) :
    deleteById (s ++ [r]) (freshId s) = s := by
  unfold deleteById
  rw [List.filter_append]
  have h1 : s.filter (fun x => !(x.id == freshId s)) = s := by
    apply List.filter_eq_self.mpr
    intro x hx
    simp only [Bool.not_eq_eq_eq_not, Bool.not_true, beq_eq_false_iff_ne]
    exact Nat.ne_of_lt (id_lt_freshId hx)
  have h2 : ([r].filter (fun x => !(x.id == freshId s))) = [] := by
    simp [hid]
  rw [h1, h2, List.append_nil]

theorem map_map_eq_self (s : Store) (u1 u2 : Row → Row)
    (h : ∀ r ∈ s, u2 (u1 r) = r) : (s.map u1).map u2 = s := by
  rw [List.map_map]
  calc s.map (u2 ∘ u1) = s.map id := List.map_congr_left (fun a ha => h a ha)
  _ = s := List.map_id s

theorem tx1Name_ne (orig : String) (n : Nat) : tx1Name orig n ≠ orig := by
  intro h
  have hlen := congrArg String.length h
  have h5 : ("_TX1_" : String).length = 5 := rfl
  simp [tx1Name, String.length_append, h5] at hlen
  omega

/-- Evaluating the non-repeatable-read scenario on a store holding a row
with the tested id and a non-null value. -/
theorem demo_nrr_eval (s0 : Store) (mid : Nat) (r0 : Row) (v0 : ℚ)
    (hfind : findById s0 mid = some r0) (hval : r0.valeur_fonciere = some v0) :
    demo_non_repeatable_read s0 mid =
      some { read1 := v0, read2 := some (v0 + 10000), observed := true,
             committed := setValeurById s0 mid (v0 + 10000) } := by
  have hid : r0.id = mid := by
    simpa using List.find?_some (p := fun r : Row => r.id == mid) hfind
  have h2 : findById (setValeurById s0 mid (v0 + 10000)) mid =
      some { r0 with valeur_fonciere := some (v0 + 10000) } := by
    rw [findById_setValeurById, hfind]
    simp [hid, setValeurRow]
  have hobs : (v0 + 10000 ≠ v0) := by
    intro h
    have := congrArg (fun x => x - v0) h
    norm_num at this
  simp [demo_non_repeatable_read, hfind, hval, h2, hobs]

/-- A transaction whose snapshot equals the committed store cannot raise a
write conflict. -/
theorem rrUpdateConflict_self {s : Store} (hnd : (s.map Row.id).Nodup)
    (c old : String) : rrUpdateConflict s s c old = false := by
  apply List.any_eq_false.mpr
  intro r hr
  have h1 : rowCurrentUnchanged s r = true := by
    unfold rowCurrentUnchanged
    rw [findById_eq_of_mem hnd hr]
    simp
  simp [h1]

/-- A stale-snapshot conditional UPDATE conflicts when some matched row was
renamed under it by a committed concurrent transaction. -/
theorem rrUpdateConflict_of_changed {s : Store} (hnd : (s.map Row.id).Nodup)
    {r0 : Row} (hr : r0 ∈ s) (c old new : String)
    (hc : r0.code_commune = c) (ho : r0.nom_commune = old) (hne : new ≠ old) :
    rrUpdateConflict s (updateCommuneRows s c old new) c old = true := by
  apply List.any_eq_true.mpr
  refine ⟨r0, hr, ?_⟩
  have hu : findById (updateCommuneRows s c old new) r0.id =
      some { r0 with nom_commune := new } := by
    unfold updateCommuneRows
    rw [findById_map_of_id_preserved _ _ _ (renameRow_id c old new)]
    rw [findById_eq_of_mem hnd hr]
    simp [renameRow, hc, ho]
  have hrc : rowCurrentUnchanged (updateCommuneRows s c old new) r0 = false := by
    unfold rowCurrentUnchanged
    rw [hu]
    simp only [beq_eq_false_iff_ne]
    intro h
    have h2 : new = r0.nom_commune := by simpa using congrArg Row.nom_commune h
    exact hne (h2.trans ho)
  simp [hc, ho, hrc]

/-- Evaluating the serialization-failure scenario in the staggered order the
code designs for: tx2's snapshot precedes tx1's commit. -/
theorem demo_serialization_eval (s0 : Store) (r0 : Row) (n1 n2 : Nat)
    (hnd : (s0.map Row.id).Nodup)
    (hfind : s0.find? (fun r => r.code_commune == testCodeCommune) = some r0) :
    demo_serialization_failure s0 n1 n2 false =
      some { tx1_success := true, tx2_success := false,
             committed := updateCommuneRows s0 testCodeCommune r0.nom_commune
               (tx1Name r0.nom_commune n1) } := by
  have hmem := List.mem_of_find?_eq_some hfind
  have hcc : r0.code_commune = testCodeCommune := by
    simpa using List.find?_some (p := fun r : Row => r.code_commune == testCodeCommune) hfind
  have hself := rrUpdateConflict_self hnd testCodeCommune r0.nom_commune
  have hconf := rrUpdateConflict_of_changed hnd hmem testCodeCommune
    r0.nom_commune (tx1Name r0.nom_commune n1) hcc rfl (tx1Name_ne r0.nom_commune n1)
  simp [demo_serialization_failure, hfind, hself, hconf,
    transaction_update_commune_name]

/-- The phantom-read demo always hands back the committed store it started
from: a failed insert writes nothing, and a successful insert is deleted by
the inserter's own cleanup. -/
theorem demo_phantom_committed (iso : Isolation) (s0 : Store) (idm : String) :
    (demo_phantom_read iso s0 idm).committed = s0 := by
  unfold demo_phantom_read
  by_cases h : (avgCommune s0 phantomSale.code_commune).isNone
  · simp [transaction_register_sale, h]
  · simp [transaction_register_sale, h]
    exact deleteById_append_fresh s0 _ rfl

/-! ### Concrete test stores -/

/-- Row builder for concrete test stores. -/
def mkRow (i : Nat) (dm : Int) (v : Option ℚ) (cc nc : String)
    (cp : Option String) : Row :=
  { id := i, id_mutation := "M" ++ toString i, date_mutation := dm,
    nature_mutation := "Vente", valeur_fonciere := v, code_commune := cc,
    nom_commune := nc, type_local := "Maison", code_postal := cp }

/-- One row of the tested commune 01344, named "A". -/
def communeStoreA : Store := [mkRow 1 20200101 (some 100000) "01344" "A" none]

/-- Two rows of commune 01344 with heterogeneous names "A" and "B". -/
def communeStoreAB : Store :=
  [mkRow 1 20200101 (some 100000) "01344" "A" none,
   mkRow 2 20200202 (some 150000) "01344" "B" none]

/-- A store for the non-repeatable-read scenario: the tested row id 1. -/
def nrrStore : Store :=
  [mkRow 1 20190105 (some 250000) "75056" "Paris" (some "75015"),
   mkRow 2 20180301 (some 90000) "01344" "A" none]

/-- A store for the bulk-adjustment round trip: a positive-valued matching
row, a NULL-valued matching row, and a non-matching row. -/
def bulkStore : Store :=
  [mkRow 1 20190105 (some 200000) "51200" "Vertus" (some "51200.0"),
   mkRow 2 20190106 none "51200" "Vertus" (some "51200.0"),
   mkRow 3 20190107 (some 80000) "01344" "A" none]

/-! ### C1 -/

/-- C1, counterexample.  The claim asserts that the serialization-failure
scenario always ends with `results['tx1_success'] != results['tx2_success']`.
The code cannot guarantee this: tx1's in-transaction sleep
(`random.uniform(0.1, 0.5)`, src/1.2.py line 120) races tx2's fixed 0.3 s
stagger (line 450), and when tx1 commits before tx2's first statement takes
tx2's snapshot, tx2's conditional UPDATE matches no row (every row carrying
the old name was already renamed), raises no conflict, and commits, so both
sides report success — the state the code itself prints as
"Результат неопределен..." (line 486).  Concretely, on a one-row store for
commune 01344 with name "A", the scenario with tx1's commit ordered before
tx2's snapshot ends with both flags true. -/
theorem c1_counterexample_both_commit :
    demo_serialization_failure communeStoreA 0 0 true =
      some { tx1_success := true, tx2_success := true,
             committed := [mkRow 1 20200101 (some 100000) "01344" "A_TX1_0" none] } := by
  decide

/-- C1, amended: provided tx2's transaction snapshot is taken before tx1's
commit (the interleaving the 0.3 s stagger was written to produce, but does
not guarantee), exactly one updater ends committed: tx1 succeeds, tx2's
conditional UPDATE raises a serialization conflict, is reported as failed
and fully rolled back, and the joined committed store carries exactly tx1's
write — no write of the rejected side is observable by any subsequent
read. -/
theorem c1_serialization_exactly_one_commits (s0 : Store) (r0 : Row)
    (n1 n2 : Nat) (hnd : (s0.map Row.id).Nodup)
    (hfind : s0.find? (fun r => r.code_commune == testCodeCommune) = some r0) :
    demo_serialization_failure s0 n1 n2 false =
      some { tx1_success := true, tx2_success := false,
             committed := updateCommuneRows s0 testCodeCommune r0.nom_commune
               (tx1Name r0.nom_commune n1) } :=
  demo_serialization_eval s0 r0 n1 n2 hnd hfind

/-- C1, witness: the amended theorem evaluated on the one-row commune
store. -/
theorem c1_serialization_exactly_one_commits_witness :
    demo_serialization_failure communeStoreA 0 0 false =
      some { tx1_success := true, tx2_success := false,
             committed := updateCommuneRows communeStoreA "01344" "A"
               (tx1Name "A" 0) } :=
  c1_serialization_exactly_one_commits communeStoreA
    (mkRow 1 20200101 (some 100000) "01344" "A" none) 0 0
    (by decide) (by decide)

/-! ### C2 -/

/-- A sale whose commune matches `communeStoreA`, so that its AVG read is
defined and the injected statement error decides the outcome. -/
def saleCommuneA : SaleDetails :=
  { date_mutation := 20240101, valeur_fonciere := 500000,
    code_commune := "01344", nom_commune := "A", type_local := "Maison" }

/-- C2, counterexample.  The claim asserts that a store error's
machine-checkable kind is re-surfaced to the caller so that the caller can
distinguish a SerializationConflict from any other failure.  In the code
both work units catch `psycopg2.Error`, print, and collapse every kind into
the same kind-less result (`False` for the name update, `None` for the sale
registration; src/1.2.py lines 99-101 and 128-132 — the `isinstance` check
at line 130 only prints a banner).  Concretely, the caller-visible outcome
of each work unit on a serialization failure is identical to its outcome on
any other store error, so no caller can distinguish them. -/
theorem c2_counterexample_kind_erased :
    (transaction_update_commune_name communeStoreA "01344" "A" "B"
        (some .serializationFailure) =
      transaction_update_commune_name communeStoreA "01344" "A" "B"
        (some .otherStoreError))
    ∧ (transaction_register_sale communeStoreA saleCommuneA "SALE-1"
        (some .serializationFailure) =
      transaction_register_sale communeStoreA saleCommuneA "SALE-1"
        (some .otherStoreError)) := by
  exact ⟨rfl, rfl⟩

/-- C2, amended: when any statement raises a store error, the work unit's
transaction is rolled back (the committed store is unchanged) and a
kind-less failure indicator is returned — `False` by the commune-name
update, `None` by the sale registration — whatever the error's kind was;
on success the commune-name update commits its conditional update and
returns `True`.  The error's kind is not re-surfaced, so a
SerializationConflict is not distinguishable by the caller from any other
store error. -/
theorem c2_error_rollback_kindless (s : Store) (c old new idm : String)
    (d : SaleDetails) (k : PgError) :
    transaction_update_commune_name s c old new (some k) = (false, s)
    ∧ transaction_register_sale s d idm (some k) = (none, s)
    ∧ transaction_update_commune_name s c old new none =
        (true, updateCommuneRows s c old new) := by
  refine ⟨rfl, ?_, rfl⟩
  unfold transaction_register_sale
  split <;> rfl

/-- C2, witness: the amended theorem evaluated at a concrete store and
error kind. -/
theorem c2_error_rollback_kindless_witness :
    transaction_update_commune_name communeStoreA "01344" "A" "B"
        (some PgError.otherStoreError) = (false, communeStoreA)
    ∧ transaction_register_sale communeStoreA saleCommuneA "SALE-2"
        (some PgError.otherStoreError) = (none, communeStoreA)
    ∧ transaction_update_commune_name communeStoreA "01344" "A" "B" none =
        (true, updateCommuneRows communeStoreA "01344" "A" "B") :=
  c2_error_rollback_kindless communeStoreA "01344" "A" "B" "SALE-2"
    saleCommuneA PgError.otherStoreError

/-! ### C3 -/

/-- C3, counterexample.  The claim asserts every `barrier.wait()` issued by
a scenario work unit carries an explicit timeout.  None does: all eight
call sites (src/1.2.py lines 171, 197, 258, 287, 332, 361, 414, 448) call
`wait()` with no argument. -/
theorem c3_counterexample_no_timeout :
    ¬ ∀ w ∈ scenarioBarrierWaitCalls, w.timeout.isSome = true := by
  decide

/-- C3, amended: no scenario `barrier.wait()` call carries a timeout, and
consequently a missed rendezvous (the other of the two parties never
arriving) leaves the waiting party blocked indefinitely — no
`BarrierTimeout` error is ever produced and no unblocking occurs. -/
theorem c3_waits_block_forever :
    scenarioBarrierWaitCalls.all
      (fun w => w.timeout.isNone &&
        decide (barrierWaitResult 2 0 w.timeout = WaitResult.blockedForever)) = true := by
  decide

/-! ### C5 -/

/-- C5: in the non-repeatable-read scenario at READ COMMITTED, for a tested
row with initial value `v0`, the reader's first read returns `v0`, the
writer commits `v0 + 10000` between the reads, the reader's second read
inside the same still-open transaction returns the new value, and the
anomaly predicate `first_read != second_read` is true. -/
theorem c5_non_repeatable_read_observed (s0 : Store) (mid : Nat) (r0 : Row)
    (v0 : ℚ) (hfind : findById s0 mid = some r0)
    (hval : r0.valeur_fonciere = some v0) :
    demo_non_repeatable_read s0 mid =
      some { read1 := v0, read2 := some (v0 + 10000), observed := true,
             committed := setValeurById s0 mid (v0 + 10000) } :=
  demo_nrr_eval s0 mid r0 v0 hfind hval

/-- C5, witness: the scenario evaluated on a concrete two-row store. -/
theorem c5_non_repeatable_read_observed_witness :
    demo_non_repeatable_read nrrStore 1 =
      some { read1 := 250000, read2 := some (250000 + 10000), observed := true,
             committed := setValeurById nrrStore 1 (250000 + 10000) } :=
  c5_non_repeatable_read_observed nrrStore 1
    (mkRow 1 20190105 (some 250000) "75056" "Paris" (some "75015")) 250000
    (by decide) (by decide)

/-! ### C6 -/

/-- The inserted phantom row qualifies for the reader's predicate, so under
the interleaving the grace sleep was written for (second count after the
insert's commit, before the cleanup delete) the READ COMMITTED count rises
by exactly one. -/
theorem demo_phantom_intended_rc (s0 : Store) (idm : String)
    (havg : (avgCommune s0 phantomSale.code_commune).isNone = false) :
    (demo_phantom_read_intended .readCommitted s0 idm).count2 =
      (demo_phantom_read_intended .readCommitted s0 idm).count1 + 1 := by
  unfold demo_phantom_read_intended
  simp only [transaction_register_sale, havg, Bool.false_eq_true, if_false,
    Bool.false_eq_true]
  simp [visible, countQualifying, countCommuneAbove, List.filter_append,
    testCommune, testValue, qGt, phantomSale]

/-- C6: evaluating the code at the failing schedule.  In the phantom-read
demo the inserter's cleanup `DELETE` runs in its own `finally` block right
after the insert commits (src/1.2.py lines 296-306), while the reader is
still inside its 1 s grace sleep (line 260); the reader's second count
therefore executes after the phantom row has already been deleted, and at
READ COMMITTED it always equals the first count — never `count_1 + 1` as
the claim (and the demo's own "ожидаем фантомы" banner, line 241)
require. -/
theorem c6_phantom_rc_counts_equal (s0 : Store) (idm : String) :
    (demo_phantom_read .readCommitted s0 idm).count2 =
      (demo_phantom_read .readCommitted s0 idm).count1 := by
  unfold demo_phantom_read
  by_cases h : (avgCommune s0 phantomSale.code_commune).isNone
  · simp [transaction_register_sale, h, visible]
  · simp [transaction_register_sale, h, visible]
    rw [deleteById_append_fresh s0 _ rfl]

/-! ### C7 -/

theorem countOlderThan_after_delete (s : Store) (cutoff : Int) :
    countOlderThan
      (s.filter (fun r => !(decide (r.date_mutation < cutoff)))) cutoff = 0 := by
  unfold countOlderThan
  rw [List.filter_filter]
  simp

/-- C7: for every committed store and every cutoff date — including one
matching zero rows — the guarded-archive dry run leaves the store
unchanged; the count of rows older than the cutoff measured before the work
unit equals the count measured after the enclosing scope's rollback, and
whenever the in-transaction post-delete check runs it reads zero. -/
theorem c7_archive_dry_run (s : Store) (cutoff : Int) :
    (run_archive_test_with_rollback s cutoff).final = s
    ∧ (run_archive_test_with_rollback s cutoff).count_after_rollback =
        (run_archive_test_with_rollback s cutoff).initial_count
    ∧ (run_archive_test_with_rollback s cutoff).count_after_delete.getD 0 = 0 := by
  unfold run_archive_test_with_rollback
  by_cases h : countOlderThan s cutoff = 0
  · simp [h]
  · simp [h, transaction_archive_old_mutations, countOlderThan_after_delete]

/-- C7, witness: the dry run evaluated on a concrete store with one row
older than the cutoff (so the delete branch is exercised). -/
theorem c7_archive_dry_run_witness :
    (run_archive_test_with_rollback communeStoreAB 20200110).final =
      communeStoreAB
    ∧ (run_archive_test_with_rollback communeStoreAB 20200110).count_after_rollback =
        (run_archive_test_with_rollback communeStoreAB 20200110).initial_count
    ∧ (run_archive_test_with_rollback communeStoreAB
        20200110).count_after_delete.getD 0 = 0 :=
  c7_archive_dry_run communeStoreAB 20200110

/-! ### C8 -/

/-- C8: for the bulk price adjustment over a postal-code filter, applying
the percentage `p` (factor `f = 1 + p/100 > 0`) and committing, then
applying the inverse (`rollback_factor = 1/f`, re-encoded as the percentage
`(1/f - 1) * 100`) and committing, restores the store exactly — rational
arithmetic models the store's exact numeric type — so the final aggregate
mean equals the initial mean `M`, in particular it is within 0.1 % of
`M`. -/
theorem adjustRow_round_trip (cp : String) (f : ℚ) (hf : 0 < f) (r : Row) :
    adjustRow cp (1 / f) (adjustRow cp f r) = r := by
  by_cases ht : (r.code_postal == some cp && qGt r.valeur_fonciere 0) = true
  · cases hv : r.valeur_fonciere with
    | none =>
      have : qGt r.valeur_fonciere 0 = true := Bool.and_elim_right ht
      rw [hv] at this
      exact absurd this (by simp [qGt])
    | some v =>
      have hvpos : (0 : ℚ) < v := by
        have : qGt r.valeur_fonciere 0 = true := Bool.and_elim_right ht
        rw [hv] at this
        exact of_decide_eq_true this
      have hcp : (r.code_postal == some cp) = true := Bool.and_elim_left ht
      have h1 : adjustRow cp f r =
          { r with valeur_fonciere := some (v * f) } := by
        unfold adjustRow
        rw [if_pos ht, hv]
        rfl
      have h2 : adjustRow cp (1 / f) { r with valeur_fonciere := some (v * f) } =
          { r with valeur_fonciere := some (v * f * (1 / f)) } := by
        unfold adjustRow
        rw [if_pos (by simp [qGt, hcp, mul_pos hvpos hf])]
        rfl
      have hvv : v * f * (1 / f) = v := by
        rw [mul_assoc, mul_one_div, div_self (ne_of_gt hf), mul_one]
      rw [h1, h2, hvv, ← hv]
  · have ht' : adjustRow cp f r = r := by
      unfold adjustRow
      rw [if_neg ht]
    rw [ht']
    unfold adjustRow
    rw [if_neg ht]

/-- C8: for the bulk price adjustment over a postal-code filter, applying
the percentage `p` (factor `f = 1 + p/100 > 0`) and committing, then
applying the inverse (`rollback_factor = 1/f`, re-encoded as the percentage
`(1/f - 1) * 100`, src/1.2.py lines 738-742) and committing, restores the
store exactly — rational arithmetic models the store's exact numeric type —
so the final aggregate mean equals the initial mean `M`; in particular it
is within 0.1 % of `M`. -/
theorem c8_bulk_round_trip (s : Store) (cp : String) (p : ℚ)
    (hf : 0 < 1 + p / 100) :
    bulkRoundTrip s cp p = s
    ∧ avgPostalCoalesce (bulkRoundTrip s cp p) cp = avgPostalCoalesce s cp
    ∧ |avgPostalCoalesce (bulkRoundTrip s cp p) cp - avgPostalCoalesce s cp| ≤
        |avgPostalCoalesce s cp| * (1 / 1000) := by
  have hmain : bulkRoundTrip s cp p = s := by
    have hf2 : (1 : ℚ) + ((1 / (1 + p / 100) - 1) * 100) / 100 =
        1 / (1 + p / 100) := by ring
    have hrw : bulkRoundTrip s cp p =
        (s.map (adjustRow cp (1 + p / 100))).map
          (adjustRow cp (1 + ((1 / (1 + p / 100) - 1) * 100) / 100)) := rfl
    rw [hrw, hf2]
    exact map_map_eq_self s _ _
      (fun r _ => adjustRow_round_trip cp (1 + p / 100) hf r)
  refine ⟨hmain, by rw [hmain], ?_⟩
  rw [hmain]
  simp

/-- C8, witness: the round trip with `p = 5` on a concrete store mixing a
positive-valued matching row, a NULL-valued matching row and a
non-matching row. -/
theorem c8_bulk_round_trip_witness :
    bulkRoundTrip bulkStore "51200.0" 5 = bulkStore
    ∧ avgPostalCoalesce (bulkRoundTrip bulkStore "51200.0" 5) "51200.0" =
        avgPostalCoalesce bulkStore "51200.0"
    ∧ |avgPostalCoalesce (bulkRoundTrip bulkStore "51200.0" 5) "51200.0" -
          avgPostalCoalesce bulkStore "51200.0"| ≤
        |avgPostalCoalesce bulkStore "51200.0"| * (1 / 1000) :=
  c8_bulk_round_trip bulkStore "51200.0" 5 (by norm_num)

/-! ### C4 -/

/-- A store for the phantom restore witness: one qualifying row of commune
01053. -/
def phantomStore : Store :=
  [mkRow 7 20200101 (some 10000000) "01053" "Chalamont" none]

theorem setValeurRow_restore (i : Nat) (w v0 : ℚ) (r : Row)
    (h : (r.id == i) = true → r.valeur_fonciere = some v0) :
    setValeurRow i v0 (setValeurRow i w r) = r := by
  unfold setValeurRow
  by_cases hid : (r.id == i) = true
  · rw [if_pos hid, if_pos hid, ← h hid]
  · rw [if_neg hid, if_neg hid]

theorem renameRow_restore (c orig new : String) (r : Row)
    (h : (r.code_commune == c) = true → r.nom_commune = orig) :
    restoreNameRow c orig (renameRow c orig new r) = r := by
  unfold renameRow restoreNameRow
  by_cases hc : (r.code_commune == c) = true
  · have ho : r.nom_commune = orig := h hc
    have hcond : (r.code_commune == c && r.nom_commune == orig) = true := by
      simp [hc, ho]
    rw [if_pos hcond, if_pos hc, ← ho]
  · have hcond : ¬ ((r.code_commune == c && r.nom_commune == orig) = true) :=
      fun hcontra => hc (Bool.and_elim_left hcontra)
    rw [if_neg hcond, if_neg hc]

theorem setValeurById_restore {s : Store} {mid : Nat} {r0 : Row} {v0 : ℚ}
    (w : ℚ) (hnd : (s.map Row.id).Nodup) (hfind : findById s mid = some r0)
    (hval : r0.valeur_fonciere = some v0) :
    setValeurById (setValeurById s mid w) mid v0 = s := by
  unfold setValeurById
  apply map_map_eq_self
  intro r hr
  apply setValeurRow_restore
  intro hid
  have hmem0 := List.mem_of_find?_eq_some hfind
  have hid0 : r0.id = mid := by
    simpa using List.find?_some (p := fun x : Row => x.id == mid) hfind
  have hr0 : r = r0 := by
    apply row_eq_of_nodup_ids hnd hr hmem0
    have : r.id = mid := by simpa using hid
    rw [this, hid0]
  rw [hr0]
  exact hval

/-- The non-repeatable-read scenario followed by its restore step brings
the committed store back to its pre-scenario state (the restore by id is
exact). -/
theorem nrr_full_restores {s0 : Store} {mid : Nat} {r0 : Row} {v0 : ℚ}
    (hnd : (s0.map Row.id).Nodup) (hfind : findById s0 mid = some r0)
    (hval : r0.valeur_fonciere = some v0) :
    demo_non_repeatable_read_full s0 mid = some s0 := by
  have hdemo := demo_nrr_eval s0 mid r0 v0 hfind hval
  have hrestore := setValeurById_restore (v0 + 10000) hnd hfind hval
  simp [demo_non_repeatable_read_full, hfind, hval, hdemo, hrestore]

/-- The serialization-failure scenario followed by its restore step brings
the committed store back to its pre-scenario state provided every row of
the tested commune carried the sampled baseline name. -/
theorem serialization_full_restores {s0 : Store} {r0 : Row} (n1 n2 : Nat)
    (hnd : (s0.map Row.id).Nodup)
    (hfind : s0.find? (fun r => r.code_commune == testCodeCommune) = some r0)
    (hhom : ∀ r ∈ s0, r.code_commune = testCodeCommune →
      r.nom_commune = r0.nom_commune) :
    demo_serialization_failure_full s0 n1 n2 false = some s0 := by
  have hdemo := demo_serialization_eval s0 r0 n1 n2 hnd hfind
  have hrestore : restoreCommuneName
      (updateCommuneRows s0 testCodeCommune r0.nom_commune
        (tx1Name r0.nom_commune n1)) testCodeCommune r0.nom_commune = s0 := by
    unfold restoreCommuneName updateCommuneRows
    apply map_map_eq_self
    intro r hr
    exact renameRow_restore _ _ _ r (fun hc => hhom r hr (by simpa using hc))
  simp [demo_serialization_failure_full, hfind, hdemo, hrestore]

/-- C4, counterexample.  The claim asserts that after every anomaly
scenario the harness restores every touched record to its pre-scenario
state and verifies this by direct comparison against the recorded baseline.
The serialization-failure restore (src/1.2.py lines 488-498) performs no
comparison at all — it issues one UPDATE and prints the reported row count
— and the UPDATE sets `nom_commune` of EVERY row of the commune to the one
name sampled with `LIMIT 1` during setup.  On a commune holding rows named
"A" and "B" (baseline sampled: "A"), the scenario touches only the "A"
rows, but the restore also rewrites the "B" row to "A", so the post-restore
state differs from the pre-scenario state. -/
theorem c4_counterexample_restore_clobbers :
    demo_serialization_failure_full communeStoreAB 0 0 false =
      some [mkRow 1 20200101 (some 100000) "01344" "A" none,
            mkRow 2 20200202 (some 150000) "01344" "A" none]
    ∧ demo_serialization_failure_full communeStoreAB 0 0 false ≠
        some communeStoreAB := by
  constructor <;> decide

/-- C4, amended: after each anomaly scenario the harness issues inverse
writes through a separate autocommit session, without any verification
against the recorded baseline.  These writes do restore the pre-scenario
state for the value scenario (restore by unique id) and for the phantom
scenario (delete of the freshly inserted id), and for the name scenario
exactly when every row of the tested commune carried the sampled baseline
name. -/
theorem c4_restore_inverse_writes :
    (∀ s0 mid r0 v0, (s0.map Row.id).Nodup → findById s0 mid = some r0 →
        r0.valeur_fonciere = some v0 →
        demo_non_repeatable_read_full s0 mid = some s0)
    ∧ (∀ iso s0 idm, (demo_phantom_read iso s0 idm).committed = s0)
    ∧ (∀ s0 r0 n1 n2, (s0.map Row.id).Nodup →
        s0.find? (fun r => r.code_commune == testCodeCommune) = some r0 →
        (∀ r ∈ s0, r.code_commune = testCodeCommune →
          r.nom_commune = r0.nom_commune) →
        demo_serialization_failure_full s0 n1 n2 false = some s0) :=
  ⟨fun _ _ _ _ hnd hf hv => nrr_full_restores hnd hf hv,
   demo_phantom_committed,
   fun _ _ n1 n2 hnd hf hh => serialization_full_restores n1 n2 hnd hf hh⟩

/-- C4, witness: the amended theorem evaluated on concrete stores. -/
theorem c4_restore_inverse_writes_witness :
    demo_non_repeatable_read_full nrrStore 1 = some nrrStore
    ∧ (demo_phantom_read .readCommitted phantomStore "SALE-1").committed =
        phantomStore
    ∧ demo_serialization_failure_full communeStoreA 0 0 false =
        some communeStoreA :=
  ⟨c4_restore_inverse_writes.1 nrrStore 1
      (mkRow 1 20190105 (some 250000) "75056" "Paris" (some "75015")) 250000
      (by decide) (by decide) (by decide),
   c4_restore_inverse_writes.2.1 .readCommitted phantomStore "SALE-1",
   c4_restore_inverse_writes.2.2 communeStoreA
      (mkRow 1 20200101 (some 100000) "01344" "A" none) 0 0
      (by decide) (by decide) (by decide)⟩

/-! ### C9 -/

theorem gatherDataframes_eq_none_iff (fs : String → ArchiveState)
    (ps : List (String × String)) :
    gatherDataframes fs ps = none ↔
      ∃ p ∈ ps, loadCsvFromZip fs p.1 p.2 = LoadResult.fatal := by
  induction ps with
  | nil => simp [gatherDataframes]
  | cons p ps ih =>
    unfold gatherDataframes
    cases hl : loadCsvFromZip fs p.1 p.2 with
    | fatal => simp [hl]
    | skipped => simp [hl, ih]
    | loaded rows => simp [hl, ih]

theorem gatherDataframes_eq_nil_iff (fs : String → ArchiveState)
    (ps : List (String × String)) :
    gatherDataframes fs ps = some [] ↔
      ∀ p ∈ ps, loadCsvFromZip fs p.1 p.2 = LoadResult.skipped := by
  induction ps with
  | nil => simp [gatherDataframes]
  | cons p ps ih =>
    unfold gatherDataframes
    cases hl : loadCsvFromZip fs p.1 p.2 with
    | fatal => simp [hl]
    | skipped => simp [hl, ih]
    | loaded rows => simp [hl]

theorem gatherDataframes_eq_some (fs : String → ArchiveState)
    {ps : List (String × String)} {dfs : List (List Nat)}
    (h : gatherDataframes fs ps = some dfs) :
    dfs = ps.filterMap (fun p => (loadCsvFromZip fs p.1 p.2).toRows) := by
  induction ps generalizing dfs with
  | nil =>
    unfold gatherDataframes at h
    simp at h
    simp [h.symm]
  | cons p ps ih =>
    unfold gatherDataframes at h
    rw [List.filterMap_cons]
    cases hl : loadCsvFromZip fs p.1 p.2 with
    | fatal =>
      rw [hl] at h
      exact absurd h (by simp)
    | skipped =>
      rw [hl] at h
      simpa [LoadResult.toRows] using ih h
    | loaded rows =>
      rw [hl] at h
      obtain ⟨dfs0, h0, hcons⟩ := Option.map_eq_some'.mp h
      rw [← hcons, ih h0]
      simp [LoadResult.toRows]

/-- The filesystem of the C9 counterexample: the 2017 archive loads its
CSV with two rows, but reading the 2018 member raises `MemoryError`. -/
def w9oomFs : String → ArchiveState := fun z =>
  if z = "full_2017.csv.zip" then
    ArchiveState.present
      (fun c => if c = "full_2017.csv" then MemberState.ok [10, 11]
                else MemberState.absent)
  else if z = "full_2018.csv.zip" then
    ArchiveState.present
      (fun c => if c = "full_2018.csv" then MemberState.outOfMemory
                else MemberState.absent)
  else ArchiveState.missing

/-- C9, counterexample.  The claim asserts `read_combine_from_zips`
returns `None` exactly when the two input lists have different lengths or
when no CSV could be loaded.  The source's `MemoryError` handler inside
the loading loop (src/main.py lines 73-76) does `return None` at once —
even when DataFrames were already successfully loaded — so the
biconditional fails: with two equal-length lists where the first archive's
CSV loads and reading the second raises `MemoryError`, the function
returns `None` although the lengths match and a CSV was loaded. -/
theorem c9_counterexample_memory_error :
    read_combine_from_zips w9oomFs
        ["full_2017.csv.zip", "full_2018.csv.zip"]
        ["full_2017.csv", "full_2018.csv"] false = none
    ∧ (["full_2017.csv.zip", "full_2018.csv.zip"] : List String).length =
        (["full_2017.csv", "full_2018.csv"] : List String).length
    ∧ loadCsvFromZip w9oomFs "full_2017.csv.zip" "full_2017.csv" =
        LoadResult.loaded [10, 11] :=
  ⟨rfl, rfl, rfl⟩

/-- C9, amended: `read_combine_from_zips` returns `None` exactly when the
two input lists have different lengths, or a `MemoryError` is raised while
reading some member (aborting at once and discarding DataFrames already
loaded), or no CSV could be loaded from any archive (missing archives,
corrupt archives, missing members, empty members, parse errors and other
per-archive errors are skipped, not fatal), or the final concat itself
raises; otherwise it returns the concatenation, in archive-list order, of
the successfully loaded per-archive DataFrames, whose row count is the sum
of their row counts. -/
theorem c9_read_combine_from_zips (fs : String → ArchiveState)
    (zips csvs : List String) (concatRaises : Bool) :
    (read_combine_from_zips fs zips csvs concatRaises = none ↔
      zips.length ≠ csvs.length
      ∨ (∃ p ∈ zips.zip csvs, loadCsvFromZip fs p.1 p.2 = LoadResult.fatal)
      ∨ (∀ p ∈ zips.zip csvs, loadCsvFromZip fs p.1 p.2 = LoadResult.skipped)
      ∨ concatRaises = true)
    ∧ (∀ df, read_combine_from_zips fs zips csvs concatRaises = some df →
        df = ((zips.zip csvs).filterMap
          (fun p => (loadCsvFromZip fs p.1 p.2).toRows)).flatten
        ∧ df.length = (((zips.zip csvs).filterMap
          (fun p => (loadCsvFromZip fs p.1 p.2).toRows)).map List.length).sum) := by
  unfold read_combine_from_zips
  by_cases hlen : zips.length ≠ csvs.length
  · simp [hlen]
  · rw [if_neg hlen]
    cases hg : gatherDataframes fs (zips.zip csvs) with
    | none =>
      dsimp only
      refine ⟨?_, ?_⟩
      · constructor
        · intro _
          exact Or.inr (Or.inl ((gatherDataframes_eq_none_iff fs _).mp hg))
        · intro _
          rfl
      · intro df hdf
        exact absurd hdf (by simp)
    | some dfs =>
      dsimp only
      by_cases hnil : dfs = []
      · subst hnil
        rw [if_pos rfl]
        refine ⟨?_, ?_⟩
        · constructor
          · intro _
            exact Or.inr (Or.inr (Or.inl
              ((gatherDataframes_eq_nil_iff fs _).mp hg)))
          · intro _
            rfl
        · intro df hdf
          exact absurd hdf (by simp)
      · rw [if_neg hnil]
        cases hc : concatRaises with
        | true =>
          rw [if_pos rfl]
          refine ⟨?_, ?_⟩
          · constructor
            · intro _
              exact Or.inr (Or.inr (Or.inr rfl))
            · intro _
              rfl
          · intro df hdf
            exact absurd hdf (by simp)
        | false =>
          rw [if_neg (by simp)]
          refine ⟨?_, ?_⟩
          · constructor
            · intro hcontra
              exact absurd hcontra (by simp)
            · intro hcontra
              exfalso
              rcases hcontra with h | h | h | h
              · exact hlen h
              · rw [(gatherDataframes_eq_none_iff fs _).mpr h] at hg
                exact Option.noConfusion hg
              · rw [(gatherDataframes_eq_nil_iff fs _).mpr h] at hg
                exact hnil (Option.some.injEq _ _ |>.mp hg).symm
              · exact Bool.false_ne_true h
          · intro df hdf
            have hdfs : df = dfs.flatten := ((Option.some.injEq _ _).mp hdf).symm
            have hfm := gatherDataframes_eq_some fs hg
            refine ⟨by rw [hdfs, hfm], ?_⟩
            rw [hdfs, hfm]
            exact List.length_flatten _

/-- The filesystem of the C9 witness: the 2017 archive is present and holds
its expected CSV with two rows; every other archive is missing. -/
def w9fs : String → ArchiveState := fun z =>
  if z = "full_2017.csv.zip" then
    ArchiveState.present
      (fun c => if c = "full_2017.csv" then MemberState.ok [10, 11]
                else MemberState.absent)
  else ArchiveState.missing

/-- C9, witness: the amended theorem's success component evaluated on a
concrete filesystem where one of two archives is missing and the concat
succeeds. -/
theorem c9_read_combine_from_zips_witness :
    ([10, 11] : List Nat) =
      (((["full_2017.csv.zip", "full_2018.csv.zip"].zip
          ["full_2017.csv", "full_2018.csv"]).filterMap
            (fun p => (loadCsvFromZip w9fs p.1 p.2).toRows)).flatten)
    ∧ ([10, 11] : List Nat).length =
      ((((["full_2017.csv.zip", "full_2018.csv.zip"].zip
          ["full_2017.csv", "full_2018.csv"]).filterMap
            (fun p => (loadCsvFromZip w9fs p.1 p.2).toRows)).map List.length).sum) :=
  (c9_read_combine_from_zips w9fs
      ["full_2017.csv.zip", "full_2018.csv.zip"]
      ["full_2017.csv", "full_2018.csv"] false).2 [10, 11] (by decide)

/-! ### C10 -/

/-- C10: `execute_query` is total over store errors at its public
interface: on any store error it rolls the connection back and returns
`(None, None)`; the cursor is closed on every path; on success without
analysis it returns the measured elapsed time paired with `None`; and a
`None` first component occurs exactly on a store error. -/
theorem c10_execute_query (analyze : Bool) (outcome : ExecOutcome)
    (elapsedMs : ℚ) (explainOutput : String) (parsedTime : Option ℚ) :
    (execute_query analyze outcome elapsedMs explainOutput
        parsedTime).cursorClosed = true
    ∧ (outcome = .storeError →
        execute_query analyze outcome elapsedMs explainOutput parsedTime =
          { first := none, second := none, rolledBack := true,
            cursorClosed := true })
    ∧ ((execute_query analyze outcome elapsedMs explainOutput
          parsedTime).first = none ↔ outcome = .storeError)
    ∧ (outcome = .success → analyze = false →
        execute_query analyze outcome elapsedMs explainOutput parsedTime =
          { first := some elapsedMs, second := none, rolledBack := false,
            cursorClosed := true }) := by
  cases outcome <;> cases analyze <;> cases parsedTime <;>
    simp [execute_query]

/-- C10, witness: the theorem's error and success components at concrete
inputs. -/
theorem c10_execute_query_witness :
    execute_query false ExecOutcome.storeError 5 "plan" none =
      { first := none, second := none, rolledBack := true,
        cursorClosed := true }
    ∧ execute_query false ExecOutcome.success 7 "plan" none =
      { first := some 7, second := none, rolledBack := false,
        cursorClosed := true } :=
  ⟨(c10_execute_query false ExecOutcome.storeError 5 "plan" none).2.1 rfl,
   (c10_execute_query false ExecOutcome.success 7 "plan" none).2.2.2 rfl rfl⟩

end MAIDB
